import Mathlib

/-!
Verification of the voice-session relay and transcript persistence logic of a
journaling web application (file `main.py`).  The development shallowly embeds
the relevant Python functions:

* the prompt tables `JournalPrompts.BASE_PROMPTS`, `JournalPrompts.VOICE_PROMPTS`
  and `JournalPrompts.INITIAL_MESSAGES`, and the selector `get_session_prompt`;
* one iteration of the upstream-to-client relay loop `relay_from_openai`
  (message parsing, the auto `response.create` rule, the awaiting-response
  flag, transcript-fragment collection, forwarding);
* the client-to-upstream text handling of `voice_websocket` (tracking
  client-initiated `response.create`);
* the persistence function `save_voice_transcript` and the session-end flush
  performed in the `finally` block of `voice_websocket`;
* the category queries `JournalDB.get_recent_entries` and
  `JournalDB.count_entries` (their SQL `WHERE` filter, over an abstract list of
  rows ordered most-recent-first);
* the error-surfacing structure of `voice_websocket` (which termination paths
  of the handler body reach the outer `except Exception` that sends a
  structured error message to the client).

Python JSON values are modelled by the inductive type `JVal`; the external
`json.loads` is an abstract parameter `parse : String -> Option JVal`
(returning `none` exactly when the library would raise), and `json.dumps` of
the transcript list is modelled at the level of JSON values by
`transcriptToJson`.  Wall-clock timestamps (`datetime.now().isoformat()`) and
the current date are threaded as string parameters.
-/

/-- JSON values as produced by `json.loads`: null, booleans, numbers, strings,
arrays and objects (objects as ordered key/value lists, looked up like a
Python dict). -/
inductive JVal where
  | null : JVal
  | bool (b : Bool) : JVal
  | num (n : Int) : JVal
  | str (s : String) : JVal
  | arr (xs : List JVal) : JVal
  | obj (fields : List (String × JVal)) : JVal

/-- Dictionary lookup on the field list of a JSON object, mirroring
`data.get(key)` on a Python dict (first matching key wins; a faithful model
since `json.loads` never yields duplicate keys). -/
def jlookup : List (String × JVal) → String → Option JVal
  | [], _ => none
  | (k2, v) :: rest, k => if k2 = k then some v else jlookup rest k

/-- The value of a field when it is a JSON string, `none` otherwise.  Used to
model Python comparisons such as `data.get("type") == "..."`, which hold only
when the field exists and is that string. -/
def jstrField (fields : List (String × JVal)) (k : String) : Option String :=
  match jlookup fields k with
  | some (JVal.str s) => some s
  | _ => none

/-- Model of `data.get(key, "")` in positions where the protocol guarantees a
string value (`transcript`, `text` fields): the string if present, `""` when
the field is absent or not a string. -/
def jstrFieldD (fields : List (String × JVal)) (k : String) : String :=
  (jstrField fields k).getD ""

/-- Python dict `.get` on a string-to-string table such as `BASE_PROMPTS`. -/
def dict_get : List (String × String) → String → Option String
  | [], _ => none
  | (k2, v) :: rest, k => if k2 = k then some v else dict_get rest k

/-- Source text of `JournalPrompts.BASE_PROMPTS["reflection"]`. -/
def basePromptReflection : String :=
  "You are a thoughtful journaling assistant helping someone reflect on their day. \n        Ask open-ended questions that encourage deep thinking about experiences, emotions, and lessons learned. \n        Be empathetic, curious, and help them process their thoughts. Keep responses concise but meaningful."

/-- Source text of `JournalPrompts.BASE_PROMPTS["planning"]`. -/
def basePromptPlanning : String :=
  "You are a planning assistant helping someone organize their thoughts for upcoming days/weeks. \n        Help them set realistic goals, prioritize tasks, and think through potential challenges. \n        Ask clarifying questions about their intentions and help them create actionable plans."

/-- Source text of `JournalPrompts.BASE_PROMPTS["notes"]`. -/
def basePromptNotes : String :=
  "You are a note-taking assistant helping someone do a brain dump. \n        Help them organize their thoughts, capture all items, and structure their ideas clearly. \n        Ask clarifying questions to ensure nothing is missed."

/-- Source text of `JournalPrompts.BASE_PROMPTS["goals"]`. -/
def basePromptGoals : String :=
  "You are a goal-tracking assistant. Help review previous goals, assess progress, \n        and set new objectives. Be encouraging but realistic about what can be accomplished."

/-- Source text of `JournalPrompts.VOICE_PROMPTS["reflection"]`. -/
def voicePromptReflection : String :=
  "You are a thoughtful journaling assistant helping someone reflect on their day while they\x27re driving. \n        Keep responses conversational and concise. Ask one question at a time. Be empathetic and encouraging. \n        Help them process their thoughts safely while driving."

/-- Source text of `JournalPrompts.VOICE_PROMPTS["planning"]`. -/
def voicePromptPlanning : String :=
  "You are a planning assistant helping someone organize their thoughts for upcoming days while driving. \n        Keep responses brief and focused. Help them set realistic goals and think through challenges. \n        Ask clarifying questions one at a time."

/-- Source text of `JournalPrompts.VOICE_PROMPTS["notes"]`. -/
def voicePromptNotes : String :=
  "You are a note-taking assistant helping someone do a brain dump while driving. \n        Help them organize their thoughts clearly. Acknowledge what they\x27ve shared and ask for clarification when needed. \n        Keep responses short and conversational."

/-- Source text of `JournalPrompts.VOICE_PROMPTS["goals"]`. -/
def voicePromptGoals : String :=
  "You are a goal-tracking assistant helping someone review and set goals while driving. \n        Be encouraging and realistic. Keep responses brief and ask one question at a time. \n        Help them think through their objectives safely."

/-- The table `JournalPrompts.BASE_PROMPTS`. -/
def BASE_PROMPTS : List (String × String) :=
  [("reflection", basePromptReflection),
   ("planning", basePromptPlanning),
   ("notes", basePromptNotes),
   ("goals", basePromptGoals)]

/-- The table `JournalPrompts.VOICE_PROMPTS`. -/
def VOICE_PROMPTS : List (String × String) :=
  [("reflection", voicePromptReflection),
   ("planning", voicePromptPlanning),
   ("notes", voicePromptNotes),
   ("goals", voicePromptGoals)]

/-- The table `JournalPrompts.INITIAL_MESSAGES`. -/
def INITIAL_MESSAGES : List (String × String) :=
  [("reflection", "Hi! I\x27m here to help you reflect on your day. What\x27s been on your mind today?"),
   ("planning", "Let\x27s plan ahead! What are you thinking about for tomorrow or the coming days?"),
   ("notes", "Ready for a brain dump! Tell me everything that\x27s on your mind - I\x27ll help you organize it."),
   ("goals", "Let\x27s talk about your goals. What would you like to work on or review?")]

/-- Embedding of `get_session_prompt(session_type, is_voice)`:
`prompts.get(session_type, prompts["reflection"])` where `prompts` is the
voice or base table.  The fallback value `prompts["reflection"]` is written
out directly since the tables are static and both contain that key. -/
def get_session_prompt (session_type : String) (isVoice : Bool) : String :=
  if isVoice then
    (dict_get VOICE_PROMPTS session_type).getD voicePromptReflection
  else
    (dict_get BASE_PROMPTS session_type).getD basePromptReflection

/-- Embedding of the initial-message selection in `start_session`:
`JournalPrompts.INITIAL_MESSAGES.get(session_type, INITIAL_MESSAGES["reflection"])`. -/
def startSessionInitialMessage (session_type : String) : String :=
  (dict_get INITIAL_MESSAGES session_type).getD
    "Hi! I\x27m here to help you reflect on your day. What\x27s been on your mind today?"

/-- The known session types hard-coded as keys of the prompt tables. -/
def knownSessionTypes : List String := ["reflection", "planning", "notes", "goals"]

/-- Role tag of a transcript fragment; the relay only ever builds fragments
with role `"user"` or `"assistant"`. -/
inductive Role where
  | user : Role
  | assistant : Role
deriving DecidableEq

/-- String stored in the `"role"` key of a fragment dict. -/
def Role.toStr : Role → String
  | Role.user => "user"
  | Role.assistant => "assistant"

/-- One element of `conversation_transcript`: a dict with keys `role`,
`content`, `timestamp`. -/
structure Fragment where
  role : Role
  content : String
  timestamp : String
deriving DecidableEq

/-- Mutable session state touched by the relay loops of `voice_websocket`:
the `awaiting_response` flag and the `conversation_transcript` list. -/
structure RelayState where
  awaiting_response : Bool
  conversation_transcript : List Fragment
deriving DecidableEq

/-- A frame received from the upstream OpenAI websocket: binary audio or a
textual payload. -/
inductive UpMsg where
  | binary (b : List Nat) : UpMsg
  | text (s : String) : UpMsg

/-- A frame the relay sends to the client websocket. -/
inductive ClientMsg where
  | bytes (b : List Nat) : ClientMsg
  | text (s : String) : ClientMsg

/-- The message `relay_from_openai` sends upstream after a buffer commit:
`json.dumps({"type": "response.create", "response": {"modalities": ["text", "audio"]}})`. -/
def responseCreateMsg : JVal :=
  JVal.obj [("type", JVal.str "response.create"),
            ("response", JVal.obj [("modalities", JVal.arr [JVal.str "text", JVal.str "audio"])])]

/-- The tuple of completion event types that clear `awaiting_response`. -/
def completionTypes : List String :=
  ["response.completed",
   "response.audio.done",
   "response.output_audio.done",
   "response.text.done",
   "response.output_text.done"]

/-- Model of `data.get("type") in (completion tuple)`: holds only when the
`type` field exists, is a string, and is one of the five completion kinds. -/
def completionHit (ty : Option String) : Bool :=
  match ty with
  | some s => decide (s ∈ completionTypes)
  | none => false

/-- One iteration of the `async for message in openai_ws` loop of
`relay_from_openai`, processing a single upstream frame.

Inputs: the abstract `json.loads` (`parse`, `none` = raise), the current
timestamp string `now`, the session state, and the frame.  Output on normal
completion of the iteration: the new state, the list of messages sent to the
upstream socket during the iteration, and the list of frames sent to the
client.  `Except.error` models an exception that escapes the iteration and
ends the relay task (the `data.get` attribute error when a parsed payload is
not a dict); the handlers at the bottom of `relay_from_openai` then swallow
it, so it is never surfaced to the client. -/
def relay_from_openai_step (parse : String → Option JVal) (now : String)
    (st : RelayState) (msg : UpMsg) :
    Except String (RelayState × List JVal × List ClientMsg) :=
  match msg with
  | UpMsg.binary b => Except.ok (st, [], [ClientMsg.bytes b])
  | UpMsg.text raw =>
    match parse raw with
    | none => Except.ok (st, [], [ClientMsg.text raw])
    | some (JVal.obj fields) =>
      let ty := jstrField fields "type"
      let autoCreate := ty = some "input_audio_buffer.committed" ∧ ¬ st.awaiting_response
      let sends : List JVal := if autoCreate then [responseCreateMsg] else []
      let awaiting1 := if autoCreate then true else st.awaiting_response
      let awaiting2 := if completionHit ty then false else awaiting1
      let transcript2 :=
        if ty = some "conversation.item.input_audio_transcription.completed" then
          st.conversation_transcript ++
            [⟨Role.user, jstrFieldD fields "transcript", now⟩]
        else if ty = some "response.text.done" then
          st.conversation_transcript ++
            [⟨Role.assistant, jstrFieldD fields "text", now⟩]
        else st.conversation_transcript
      Except.ok (⟨awaiting2, transcript2⟩, sends, [ClientMsg.text raw])
    | some _ => Except.error "AttributeError: no attribute get"

/-- The textual branch of the client-to-upstream loop in `voice_websocket`:
parse the client text, set `awaiting_response` when the payload is a dict of
type `response.create` (parse failures and non-dicts are ignored by the inner
`except: pass`), then forward the text upstream verbatim. -/
def client_text_step (parse : String → Option JVal) (st : RelayState)
    (textData : String) : RelayState × List String :=
  let awaiting2 :=
    match parse textData with
    | some (JVal.obj fields) =>
      if jstrField fields "type" = some "response.create" then true
      else st.awaiting_response
    | _ => st.awaiting_response
  (⟨awaiting2, st.conversation_transcript⟩, [textData])

/-- JSON encoding of one fragment, with the key order used when the relay
builds the dict. -/
def Fragment.toJson (f : Fragment) : JVal :=
  JVal.obj [("role", JVal.str f.role.toStr),
            ("content", JVal.str f.content),
            ("timestamp", JVal.str f.timestamp)]

/-- Model of `json.dumps(transcript)` at the level of JSON values. -/
def transcriptToJson (transcript : List Fragment) : JVal :=
  JVal.arr (transcript.map Fragment.toJson)

/-- JSON decoding of one fragment dict, inverse of `Fragment.toJson`. -/
def fragmentOfJson : JVal → Option Fragment
  | JVal.obj [("role", JVal.str r), ("content", JVal.str c), ("timestamp", JVal.str ts)] =>
    if r = "user" then some ⟨Role.user, c, ts⟩
    else if r = "assistant" then some ⟨Role.assistant, c, ts⟩
    else none
  | _ => none

/-- JSON decoding of a list of fragment dicts, failing if any element fails. -/
def fragmentsOfJson : List JVal → Option (List Fragment)
  | [] => some []
  | x :: rest =>
    match fragmentOfJson x, fragmentsOfJson rest with
    | some f, some fs => some (f :: fs)
    | _, _ => none

/-- JSON decoding of a serialized transcript, inverse of `transcriptToJson`. -/
def transcriptOfJson : JVal → Option (List Fragment)
  | JVal.arr xs => fragmentsOfJson xs
  | _ => none

/-- One row of the `entries` table as written by the voice path (the
auto-increment id and the timestamp columns are supplied by the database). -/
structure Entry where
  date : String
  type : String
  content : String
  ai_prompts : JVal

/-- Embedding of `save_voice_transcript(transcript, session_type)` with the
current date threaded in: collect the contents of `user`-role fragments in
order; if any exist, insert a row with type `"voice_" + session_type`,
content the space-joined user contents, and `ai_prompts` the serialized full
transcript; otherwise write nothing. -/
def save_voice_transcript (transcript : List Fragment) (session_type today : String) :
    Option Entry :=
  let user_content := (transcript.filter (fun f => f.role = Role.user)).map Fragment.content
  if user_content = [] then none
  else some ⟨today, "voice_" ++ session_type,
             String.intercalate " " user_content, transcriptToJson transcript⟩

/-- The transcript flush in the `finally` block of `voice_websocket`:
`save_voice_transcript` is called only when `conversation_transcript` is
non-empty. -/
def sessionEndFlush (transcript : List Fragment) (session_type today : String) :
    Option Entry :=
  if transcript = [] then none
  else save_voice_transcript transcript session_type today

/-- The `WHERE (type = ? OR type = ?)` filter shared by
`JournalDB.get_recent_entries` and `JournalDB.count_entries`, with parameters
`(session_type, f"voice_{session_type}")`. -/
def entryTypeMatches (session_type : String) (e : Entry) : Bool :=
  e.type = session_type ∨ e.type = "voice_" ++ session_type

/-- Embedding of `JournalDB.get_recent_entries(session_type, limit)` over an
abstract table ordered most recently created first (the SQL
`ORDER BY created_at DESC`): the matching rows, newest first, at most
`limit`, projected to `(content, ai_prompts, date)`. -/
def get_recent_entries (db : List Entry) (session_type : String) (limit : Nat) :
    List (String × JVal × String) :=
  ((db.filter (entryTypeMatches session_type)).take limit).map
    (fun e => (e.content, e.ai_prompts, e.date))

/-- Embedding of `JournalDB.count_entries(session_type)`: the number of rows
matching the two-type filter. -/
def count_entries (db : List Entry) (session_type : String) : Nat :=
  (db.filter (entryTypeMatches session_type)).length

/-- Extraction of the session type from the client configuration message:
`config.get("session_type", "reflection")` (defaulting also when the field is
not a string, in which case the protocol is already broken). -/
def sessionTypeFromConfig (config : JVal) : String :=
  match config with
  | JVal.obj fields => (jstrField fields "session_type").getD "reflection"
  | _ => "reflection"

/-- The ways the body of `voice_websocket` (after a present API key) stops
running, read off the control flow of the handler:

* `configParseFailed`: `json.loads(config_data)` or the subsequent
  `config.get` raised during setup; propagates to the outer
  `except Exception`.
* `upstreamConnectFailed`: `websockets.connect` raised during setup, before
  `openai_ws` was assigned; propagates to the outer `except Exception`.
* `clientDisconnected`: the client loop saw a `websocket.disconnect` message
  or `websocket.receive` raised `WebSocketDisconnect`; caught by the inner
  `except WebSocketDisconnect` (or the `break`), so the body ends normally.
* `clientLoopRaised`: any other exception escaped the client-to-upstream
  loop mid-session (for example `openai_ws.send` raising after the upstream
  connection closed); the inner handler only catches `WebSocketDisconnect`,
  so this propagates to the outer `except Exception`.

Exceptions raised inside the `relay_from_openai` task never appear here: that
coroutine catches `ConnectionClosed` and `Exception` itself and the task's
failure is never awaited, so it cannot terminate the handler body. -/
inductive BodyOutcome where
  | configParseFailed (msg : String) : BodyOutcome
  | upstreamConnectFailed (msg : String) : BodyOutcome
  | clientDisconnected : BodyOutcome
  | clientLoopRaised (msg : String) : BodyOutcome
deriving DecidableEq

/-- Whether an outcome is a setup failure, i.e. occurs before the session is
established (before the `ready` signal is sent to the client). -/
def BodyOutcome.isSetupFailure : BodyOutcome → Bool
  | BodyOutcome.configParseFailed _ => true
  | BodyOutcome.upstreamConnectFailed _ => true
  | BodyOutcome.clientDisconnected => false
  | BodyOutcome.clientLoopRaised _ => false

/-- Whether the upstream connection was opened on this outcome (both setup
failures occur before `openai_ws` is assigned). -/
def BodyOutcome.upstreamOpened : BodyOutcome → Bool
  | BodyOutcome.configParseFailed _ => false
  | BodyOutcome.upstreamConnectFailed _ => false
  | BodyOutcome.clientDisconnected => true
  | BodyOutcome.clientLoopRaised _ => true

/-- What `voice_websocket` does at top level for the client, observable from
outside: the structured error message sent (if any), whether an upstream
connection was opened, and the entry persisted by the `finally` flush. -/
structure HandlerResult where
  errorToClient : Option String
  upstreamOpened : Bool
  persisted : Option Entry

/-- Top-level error-and-teardown structure of `voice_websocket`.

If `api_key` is absent the handler sends
`{"type": "error", "message": "OpenAI API key not configured"}` and returns
at once: no upstream connection, and the `finally` flush runs on the still
empty `conversation_transcript`, so nothing is persisted.

Otherwise the body runs to some `BodyOutcome` having collected `transcript`;
an outcome that propagates an exception to the outer `except Exception` makes
the handler send `{"type": "error", "message": str(e)}`, after which the
`finally` flush persists the collected transcript. -/
def voice_websocket_result (api_key : Option String) (outcome : BodyOutcome)
    (transcript : List Fragment) (session_type today : String) : HandlerResult :=
  match api_key with
  | none => ⟨some "OpenAI API key not configured", false, sessionEndFlush [] session_type today⟩
  | some _ =>
    let err : Option String :=
      match outcome with
      | BodyOutcome.configParseFailed m => some m
      | BodyOutcome.upstreamConnectFailed m => some m
      | BodyOutcome.clientDisconnected => none
      | BodyOutcome.clientLoopRaised m => some m
    ⟨err, outcome.upstreamOpened, sessionEndFlush transcript session_type today⟩

lemma completionHit_committed : completionHit (some "input_audio_buffer.committed") = false := by
  decide

/-- C1: when an upstream textual message of type `input_audio_buffer.committed`
is processed with `awaiting_response = false`, exactly one `response.create`
request is sent upstream and the flag becomes true; when the flag is already
true, nothing is sent upstream and the state is unchanged (the message is
forwarded to the client either way). -/
theorem committed_autocreates_response (parse : String → Option JVal) (now : String)
    (st : RelayState) (raw : String) (fields : List (String × JVal))
    (hp : parse raw = some (JVal.obj fields))
    (ht : jstrField fields "type" = some "input_audio_buffer.committed") :
    (st.awaiting_response = false →
      relay_from_openai_step parse now st (UpMsg.text raw) =
        Except.ok (⟨true, st.conversation_transcript⟩, [responseCreateMsg], [ClientMsg.text raw])) ∧
    (st.awaiting_response = true →
      relay_from_openai_step parse now st (UpMsg.text raw) =
        Except.ok (st, [], [ClientMsg.text raw])) := by
  obtain ⟨a, tr⟩ := st
  constructor <;> intro h <;> subst h <;>
    simp [relay_from_openai_step, hp, ht, completionHit_committed]

theorem committed_autocreates_response_witness :
    (relay_from_openai_step
        (fun _ => some (JVal.obj [("type", JVal.str "input_audio_buffer.committed")]))
        "2026-02-03T10:00:00" ⟨false, []⟩ (UpMsg.text "m") =
      Except.ok (⟨true, []⟩, [responseCreateMsg], [ClientMsg.text "m"])) ∧
    (relay_from_openai_step
        (fun _ => some (JVal.obj [("type", JVal.str "input_audio_buffer.committed")]))
        "2026-02-03T10:00:00" ⟨true, []⟩ (UpMsg.text "m") =
      Except.ok (⟨true, []⟩, [], [ClientMsg.text "m"])) :=
  ⟨(committed_autocreates_response
      (fun _ => some (JVal.obj [("type", JVal.str "input_audio_buffer.committed")]))
      "2026-02-03T10:00:00" ⟨false, []⟩ "m"
      [("type", JVal.str "input_audio_buffer.committed")] rfl rfl).1 rfl,
   (committed_autocreates_response
      (fun _ => some (JVal.obj [("type", JVal.str "input_audio_buffer.committed")]))
      "2026-02-03T10:00:00" ⟨true, []⟩ "m"
      [("type", JVal.str "input_audio_buffer.committed")] rfl rfl).2 rfl⟩

/-- C2: an upstream textual message whose `type` is any of the five completion
kinds clears `awaiting_response`, whatever its previous value (so however the
flag became true, by the auto-advance rule of `relay_from_openai_step` or by a
client `response.create` tracked by `client_text_step`); no message is sent
upstream, the message is forwarded, and only `response.text.done`
additionally appends an assistant fragment. -/
theorem completion_clears_awaiting (parse : String → Option JVal) (now : String)
    (st : RelayState) (raw : String) (fields : List (String × JVal)) (ty : String)
    (hp : parse raw = some (JVal.obj fields))
    (ht : jstrField fields "type" = some ty)
    (hmem : ty ∈ completionTypes) :
    relay_from_openai_step parse now st (UpMsg.text raw) =
      Except.ok
        (⟨false,
          if ty = "response.text.done" then
            st.conversation_transcript ++ [⟨Role.assistant, jstrFieldD fields "text", now⟩]
          else st.conversation_transcript⟩,
         [], [ClientMsg.text raw]) := by
  simp only [completionTypes, List.mem_cons, List.not_mem_nil, or_false] at hmem
  rcases hmem with rfl | rfl | rfl | rfl | rfl <;>
    simp [relay_from_openai_step, hp, ht, completionHit, completionTypes]

theorem completion_clears_awaiting_witness :
    relay_from_openai_step
        (fun _ => some (JVal.obj [("type", JVal.str "response.completed")]))
        "2026-02-03T10:00:01" ⟨true, []⟩ (UpMsg.text "m2") =
      Except.ok
        (⟨false,
          if "response.completed" = "response.text.done" then
            ([] : List Fragment) ++
              [⟨Role.assistant, jstrFieldD [("type", JVal.str "response.completed")] "text",
                "2026-02-03T10:00:01"⟩]
          else []⟩,
         [], [ClientMsg.text "m2"]) :=
  completion_clears_awaiting
    (fun _ => some (JVal.obj [("type", JVal.str "response.completed")]))
    "2026-02-03T10:00:01" ⟨true, []⟩ "m2"
    [("type", JVal.str "response.completed")] "response.completed" rfl rfl (by decide)

/-- C5: an upstream textual message that fails JSON parsing is forwarded to
the client unchanged, nothing is sent upstream, the session state is
untouched, and the iteration completes normally (no uncaught error). -/
theorem parse_failure_forwards_raw (parse : String → Option JVal) (now : String)
    (st : RelayState) (raw : String) (hp : parse raw = none) :
    relay_from_openai_step parse now st (UpMsg.text raw) =
      Except.ok (st, [], [ClientMsg.text raw]) := by
  simp [relay_from_openai_step, hp]

theorem parse_failure_forwards_raw_witness :
    relay_from_openai_step (fun _ => none) "2026-02-03T10:00:02"
        ⟨false, []⟩ (UpMsg.text "not json") =
      Except.ok (⟨false, []⟩, [], [ClientMsg.text "not json"]) :=
  parse_failure_forwards_raw _ _ _ _ rfl

lemma fragmentOfJson_toJson (f : Fragment) : fragmentOfJson f.toJson = some f := by
  obtain ⟨r, c, ts⟩ := f
  cases r <;> simp [Fragment.toJson, fragmentOfJson, Role.toStr]

lemma transcriptOfJson_toJson (t : List Fragment) :
    transcriptOfJson (transcriptToJson t) = some t := by
  induction t with
  | nil => simp [transcriptToJson, transcriptOfJson, fragmentsOfJson]
  | cons f rest ih =>
    simp only [transcriptToJson, transcriptOfJson, List.map_cons, fragmentsOfJson,
      fragmentOfJson_toJson] at ih ⊢
    simp [ih]

lemma save_voice_transcript_of_user (t : List Fragment) (s d : String)
    (h : ∃ f ∈ t, f.role = Role.user) :
    save_voice_transcript t s d =
      some ⟨d, "voice_" ++ s,
            String.intercalate " "
              ((t.filter (fun f => f.role = Role.user)).map Fragment.content),
            transcriptToJson t⟩ := by
  obtain ⟨f, hf, hr⟩ := h
  have hne : (t.filter (fun f => f.role = Role.user)).map Fragment.content ≠ [] := by
    simp only [ne_eq, List.map_eq_nil_iff, List.filter_eq_nil_iff]
    intro hall
    exact hall f hf (by simp [hr])
  simp [save_voice_transcript, hne]

/-- C3: the session-end flush writes an entry if and only if at least one
`user`-role fragment was collected; empty or assistant-only transcripts
persist nothing. -/
theorem transcript_persisted_iff_user_fragment (t : List Fragment) (s d : String) :
    (sessionEndFlush t s d).isSome ↔ ∃ f ∈ t, f.role = Role.user := by
  constructor
  · intro hsome
    rcases eq_or_ne t [] with rfl | hne
    · simp [sessionEndFlush] at hsome
    · rw [sessionEndFlush, if_neg hne, save_voice_transcript] at hsome
      by_contra hno
      push_neg at hno
      have hfil : t.filter (fun f => f.role = Role.user) = [] := by
        simp only [List.filter_eq_nil_iff]
        intro f hf
        simp [hno f hf]
      simp [hfil] at hsome
  · intro h
    have hne : t ≠ [] := by
      obtain ⟨f, hf, _⟩ := h
      exact List.ne_nil_of_mem hf
    rw [sessionEndFlush, if_neg hne, save_voice_transcript_of_user t s d h]
    rfl

/-- C4: a transcript with at least one `user` fragment persists an entry
whose content column is the space-joined text of the `user` fragments in
order, and whose `ai_prompts` column is the JSON serialization of the entire
ordered fragment list, from which the fragment list is recovered by JSON
parsing. -/
theorem persisted_entry_roundtrip (t : List Fragment) (s d : String)
    (h : ∃ f ∈ t, f.role = Role.user) :
    ∃ e, save_voice_transcript t s d = some e ∧
      e.content = String.intercalate " "
        ((t.filter (fun f => f.role = Role.user)).map Fragment.content) ∧
      e.ai_prompts = transcriptToJson t ∧
      transcriptOfJson e.ai_prompts = some t := by
  refine ⟨_, save_voice_transcript_of_user t s d h, rfl, rfl, ?_⟩
  exact transcriptOfJson_toJson t

theorem persisted_entry_roundtrip_witness :
    (∃ e, save_voice_transcript
        [⟨Role.user, "A", "t1"⟩, ⟨Role.assistant, "B", "t2"⟩, ⟨Role.user, "C", "t3"⟩]
        "reflection" "2026-02-03" = some e ∧
      e.content = String.intercalate " "
        (([⟨Role.user, "A", "t1"⟩, ⟨Role.assistant, "B", "t2"⟩,
           ⟨Role.user, "C", "t3"⟩].filter
            (fun f : Fragment => f.role = Role.user)).map Fragment.content) ∧
      e.ai_prompts = transcriptToJson
        [⟨Role.user, "A", "t1"⟩, ⟨Role.assistant, "B", "t2"⟩, ⟨Role.user, "C", "t3"⟩] ∧
      transcriptOfJson e.ai_prompts = some
        [⟨Role.user, "A", "t1"⟩, ⟨Role.assistant, "B", "t2"⟩, ⟨Role.user, "C", "t3"⟩]) ∧
    String.intercalate " "
        (([⟨Role.user, "A", "t1"⟩, ⟨Role.assistant, "B", "t2"⟩,
           ⟨Role.user, "C", "t3"⟩].filter
            (fun f : Fragment => f.role = Role.user)).map Fragment.content) = "A C" :=
  ⟨persisted_entry_roundtrip
      [⟨Role.user, "A", "t1"⟩, ⟨Role.assistant, "B", "t2"⟩, ⟨Role.user, "C", "t3"⟩]
      "reflection" "2026-02-03"
      ⟨⟨Role.user, "A", "t1"⟩, by simp, rfl⟩,
   by rfl⟩

/-- C6 counterexample: with the API key configured, an exception escaping the
client-to-upstream loop mid-session (for instance `openai_ws.send` raising
after the upstream connection closed) is not a setup failure, yet the outer
exception handler of `voice_websocket` still sends the client a structured
error message; so structured errors are not limited to setup failures. -/
theorem midsession_error_reaches_client :
    (BodyOutcome.clientLoopRaised "no close frame received or sent").isSetupFailure = false ∧
    (voice_websocket_result (some "sk-test")
        (BodyOutcome.clientLoopRaised "no close frame received or sent")
        [] "reflection" "2026-02-03").errorToClient =
      some "no close frame received or sent" :=
  ⟨rfl, rfl⟩

/-- C6 amended: the handler closes silently (no structured error message to
the client) exactly when the API key is present and the body ended with a
client disconnect; every other termination path - missing credential, setup
failure, or an exception escaping the client-to-upstream loop mid-session -
sends the client a structured error message.  Failures inside the
upstream-to-client relay task are swallowed by its own handlers and never
reach the client (see `BodyOutcome`). -/
theorem silent_closure_iff_disconnect (api_key : Option String)
    (outcome : BodyOutcome) (t : List Fragment) (s d : String) :
    (voice_websocket_result api_key outcome t s d).errorToClient = none ↔
      api_key.isSome = true ∧ outcome = BodyOutcome.clientDisconnected := by
  cases api_key <;> cases outcome <;>
    simp [voice_websocket_result]

/-- C7: when the API key is missing, `voice_websocket` sends the client the
structured error `{"type": "error", "message": "OpenAI API key not configured"}`
and returns immediately: no upstream connection is opened and nothing is
persisted, whatever would have happened afterwards. -/
theorem missing_key_terminates_cleanly (outcome : BodyOutcome)
    (t : List Fragment) (s d : String) :
    voice_websocket_result none outcome t s d =
      ⟨some "OpenAI API key not configured", false, none⟩ := by
  simp [voice_websocket_result, sessionEndFlush]

lemma voice_prefixed_ne (s : String) : "voice_" ++ s ≠ s := by
  intro h
  have hlen := congrArg String.length h
  rw [String.length_append] at hlen
  have h6 : ("voice_" : String).length = 6 := rfl
  omega

/-- C8: a voice session persists its entry under type `"voice_" ++ s`, which
differs from the bare session type `s` (so voice and text entries of the same
category stay distinguishable), while the filter shared by
`JournalDB.get_recent_entries` and `JournalDB.count_entries` accepts both the
bare and the prefixed tag, so both kinds of entry are counted and retrieved
together by category. -/
theorem voice_entry_distinguishable_yet_retrievable (t : List Fragment)
    (s d : String) (h : ∃ f ∈ t, f.role = Role.user) :
    ∃ e, save_voice_transcript t s d = some e ∧
      e.type = "voice_" ++ s ∧
      e.type ≠ s ∧
      entryTypeMatches s e = true ∧
      (∀ e2 : Entry, e2.type = s → entryTypeMatches s e2 = true) ∧
      (∀ db : List Entry, e ∈ db → 0 < count_entries db s) ∧
      (∀ e2 : Entry, e2.type = s → count_entries [e, e2] s = 2) ∧
      (∀ lim : Nat, 0 < lim →
        get_recent_entries [e] s lim = [(e.content, e.ai_prompts, e.date)]) := by
  refine ⟨_, save_voice_transcript_of_user t s d h, rfl, voice_prefixed_ne s, ?_, ?_, ?_, ?_, ?_⟩
  · simp [entryTypeMatches]
  · intro e2 h2
    simp [entryTypeMatches, h2]
  · intro db hmem
    have hfil : _ ∈ db.filter (entryTypeMatches s) :=
      List.mem_filter.mpr ⟨hmem, by simp [entryTypeMatches]⟩
    exact List.length_pos.mpr (List.ne_nil_of_mem hfil)
  · intro e2 h2
    simp [count_entries, entryTypeMatches, h2]
  · intro lim hlim
    obtain ⟨n, rfl⟩ : ∃ n, lim = n + 1 := ⟨lim - 1, by omega⟩
    simp [get_recent_entries, entryTypeMatches]

theorem voice_entry_distinguishable_yet_retrievable_witness :
    ∃ e, save_voice_transcript [⟨Role.user, "hi", "t1"⟩] "planning" "2026-02-03" = some e ∧
      e.type = "voice_" ++ "planning" ∧
      e.type ≠ "planning" ∧
      entryTypeMatches "planning" e = true ∧
      (∀ e2 : Entry, e2.type = "planning" → entryTypeMatches "planning" e2 = true) ∧
      (∀ db : List Entry, e ∈ db → 0 < count_entries db "planning") ∧
      (∀ e2 : Entry, e2.type = "planning" → count_entries [e, e2] "planning" = 2) ∧
      (∀ lim : Nat, 0 < lim →
        get_recent_entries [e] "planning" lim = [(e.content, e.ai_prompts, e.date)]) :=
  voice_entry_distinguishable_yet_retrievable [⟨Role.user, "hi", "t1"⟩] "planning"
    "2026-02-03" ⟨⟨Role.user, "hi", "t1"⟩, by simp, rfl⟩

/-- C9: for any session-type string outside the known enumeration, prompt
selection (voice and base) and the start-session initial message all fall
back to the `reflection` choice; the selectors are total functions, so they
never fail. -/
theorem unknown_session_type_defaults (s : String) (h : s ∉ knownSessionTypes) :
    get_session_prompt s true = get_session_prompt "reflection" true ∧
    get_session_prompt s false = get_session_prompt "reflection" false ∧
    startSessionInitialMessage s = startSessionInitialMessage "reflection" := by
  simp only [knownSessionTypes, List.mem_cons, List.not_mem_nil, or_false, not_or] at h
  obtain ⟨h1, h2, h3, h4⟩ := h
  refine ⟨?_, ?_, ?_⟩ <;>
    simp [get_session_prompt, startSessionInitialMessage, dict_get,
      VOICE_PROMPTS, BASE_PROMPTS, INITIAL_MESSAGES,
      Ne.symm h1, Ne.symm h2, Ne.symm h3, Ne.symm h4]

theorem unknown_session_type_defaults_witness :
    get_session_prompt "driving" true = get_session_prompt "reflection" true ∧
    get_session_prompt "driving" false = get_session_prompt "reflection" false ∧
    startSessionInitialMessage "driving" = startSessionInitialMessage "reflection" :=
  unknown_session_type_defaults "driving" (by decide)

/-- C10: the persisted type tag uses the raw client-supplied session-type
string: even for a string outside the known enumeration it is read unchanged
from the configuration message and the entry is saved under
`"voice_" ++ s`, while the reflection fallback applies only to the
instruction text selected for the upstream session configuration. -/
theorem raw_session_type_tag_persisted (s : String) (t : List Fragment) (d : String)
    (hs : s ∉ knownSessionTypes) (h : ∃ f ∈ t, f.role = Role.user) :
    sessionTypeFromConfig (JVal.obj [("session_type", JVal.str s)]) = s ∧
    (∃ e, save_voice_transcript t s d = some e ∧ e.type = "voice_" ++ s) ∧
    get_session_prompt s true = voicePromptReflection := by
  refine ⟨?_, ⟨_, save_voice_transcript_of_user t s d h, rfl⟩, ?_⟩
  · simp [sessionTypeFromConfig, jstrField, jlookup]
  · simp only [knownSessionTypes, List.mem_cons, List.not_mem_nil, or_false, not_or] at hs
    obtain ⟨h1, h2, h3, h4⟩ := hs
    simp [get_session_prompt, dict_get, VOICE_PROMPTS,
      Ne.symm h1, Ne.symm h2, Ne.symm h3, Ne.symm h4]

theorem raw_session_type_tag_persisted_witness :
    sessionTypeFromConfig (JVal.obj [("session_type", JVal.str "venting")]) = "venting" ∧
    (∃ e, save_voice_transcript [⟨Role.user, "hello", "t0"⟩] "venting" "2026-02-03" = some e ∧
      e.type = "voice_" ++ "venting") ∧
    get_session_prompt "venting" true = voicePromptReflection :=
  raw_session_type_tag_persisted "venting" [⟨Role.user, "hello", "t0"⟩] "2026-02-03"
    (by decide) ⟨⟨Role.user, "hello", "t0"⟩, by simp, rfl⟩
